import Mathlib

/-!
Shallow embedding of the device-input arbitration pipeline and update
scheduler of the minigioco repository: the `InputManager` axis shaper,
calibration clamping, keyboard vector and trigger handling, gamepad
trigger edge detection, the `useDeviceInput` arbitration state machine,
and the `useGameLoop` frame scheduler.
-/

namespace Minigioco

/-! ## Axis shaper and calibration (`InputManager`) -/

/-- Calibration state held by `InputManager` (`deadZone`, `responseCurve`). -/
structure Calib where
  deadZone : ℝ
  responseCurve : ℝ

/-- Default calibration: `deadZone = 0.25`, `responseCurve = 1.6`. -/
noncomputable def defaultCalib : Calib := ⟨1/4, 8/5⟩

/-- JavaScript `Math.sign` on non-NaN numbers. -/
noncomputable def jsign (v : ℝ) : ℝ :=
  if 0 < v then 1 else if v < 0 then -1 else 0

/-- The method `InputManager.shapeAxis`: dead zone then power response curve,
sign reapplied.  `Math.pow` on a non-negative base is real exponentiation,
modelled by `Real.rpow` (the `^` below). -/
noncomputable def shapeAxis (c : Calib) (v : ℝ) : ℝ :=
  let a := |v|
  if a ≤ c.deadZone then 0
  else
    let n := (a - c.deadZone) / (1 - c.deadZone)
    let curved := n ^ c.responseCurve
    jsign v * curved

/-- The method `InputManager.setCalibration`: each field is updated only when the
option carries a number (`typeof === 'number'`), clamped on write. -/
noncomputable def setCalibration (c : Calib) (deadZone responseCurve : Option ℝ) :
    Calib :=
  let c1 := match deadZone with
    | some d => { c with deadZone := min (9/10) (max 0 d) }
    | none => c
  match responseCurve with
    | some r => { c1 with responseCurve := max (1/2) r }
    | none => c1

/-! ## Keyboard vector (`InputManager.keyVector`) -/

/-- Whether the "up" direction is held (arrow name, legacy name, or WASD). -/
def heldUp (keys : List String) : Bool :=
  keys.contains "arrowup" || keys.contains "up" || keys.contains "w"

/-- Whether the "down" direction is held. -/
def heldDown (keys : List String) : Bool :=
  keys.contains "arrowdown" || keys.contains "down" || keys.contains "s"

/-- Whether the "left" direction is held. -/
def heldLeft (keys : List String) : Bool :=
  keys.contains "arrowleft" || keys.contains "left" || keys.contains "a"

/-- Whether the "right" direction is held. -/
def heldRight (keys : List String) : Bool :=
  keys.contains "arrowright" || keys.contains "right" || keys.contains "d"

/-- The method `InputManager.keyVector`: digital vector from the held-key set,
`x = (right ? 1 : 0) - (left ? 1 : 0)`, `y = (down ? 1 : 0) - (up ? 1 : 0)`. -/
def keyVector (keys : List String) : Int × Int :=
  ((if heldRight keys then 1 else 0) - (if heldLeft keys then 1 else 0),
   (if heldDown keys then 1 else 0) - (if heldUp keys then 1 else 0))

/-! ## Trigger channel edges -/

/-- JavaScript `String.prototype.toLowerCase`, restricted to the ASCII key
names that occur here (character-wise `Char.toLower`). -/
def toLowerCase (s : String) : String := ⟨s.data.map Char.toLower⟩

/-- The keydown handler: lower-cases the key, adds it to the held set, and
reports whether it emits a trigger (`k === ' ' || k === 'space' || k === 'enter'`).
The source has no edge guard here: the trigger condition looks only at the
incoming key, not at the held set. -/
def keydownStep (keys : List String) (key : String) : List String × Bool :=
  let k := toLowerCase key
  (keys.insert k, k == " " || k == "space" || k == "enter")

/-- The keyup handler: lower-cases the key and removes it; never triggers. -/
def keyupStep (keys : List String) (key : String) : List String × Bool :=
  (keys.erase (toLowerCase key), false)

/-- One gamepad poll step of the trigger logic in `InputManager.pollGamepad`:
given the stored `gamepadButtonDown` flag and whether any button is currently
pressed, returns the new flag and whether a trigger fires
(`anyPressed && !gamepadButtonDown`). -/
def gpPollStep (down : Bool) (anyPressed : Bool) : Bool × Bool :=
  (anyPressed, anyPressed && !down)

/-- Number of triggers fired over a sequence of polls, threading the
`gamepadButtonDown` flag. -/
def gpTriggerCount (down : Bool) : List Bool → Nat
  | [] => 0
  | p :: ps =>
      let s := gpPollStep down p
      (if s.2 then 1 else 0) + gpTriggerCount s.1 ps

/-! ## Arbitration state machine (`useDeviceInput`) -/

/-- A move vector `{x, y}`. -/
structure Vec where
  x : ℝ
  y : ℝ

/-- Input sources. -/
inductive Source
  | keyboard
  | gamepad
  | pointer
  deriving DecidableEq, Repr

/-- The epsilon threshold `EPS = 0.0001` of `useDeviceInput`. -/
noncomputable def EPS : ℝ := 1/10000

/-- JavaScript `Math.hypot` of the components. -/
noncomputable def hypot (x y : ℝ) : ℝ := Real.sqrt (x^2 + y^2)

/-- Significance test of `useDeviceInput`: `Math.hypot(v.x, v.y) > EPS`. -/
noncomputable def significant (v : Vec) : Prop := hypot v.x v.y > EPS

/-- State of the arbitration hook: the active source and the last vector
recorded per source. -/
structure ArbState where
  active : Source
  lastKeyboard : Vec
  lastGamepad : Vec
  lastPointer : Vec

/-- A `(vector, source)` move event delivered to the arbitration callback. -/
structure MoveEvent where
  src : Source
  v : Vec

/-- Record the incoming vector in `lastBySource`. -/
def recordLast (s : ArbState) (e : MoveEvent) : ArbState :=
  match e.src with
  | Source.keyboard => { s with lastKeyboard := e.v }
  | Source.gamepad => { s with lastGamepad := e.v }
  | Source.pointer => { s with lastPointer := e.v }

open Classical in
/-- One transition of the arbitration state machine of `useDeviceInput`:
record the vector, then decide the active source. -/
noncomputable def arbStep (s : ArbState) (e : MoveEvent) : ArbState :=
  let s1 := recordLast s e
  match e.src with
  | Source.keyboard =>
      if significant e.v then { s1 with active := Source.keyboard }
      else { s1 with active := Source.pointer }
  | Source.gamepad =>
      if significant e.v ∧ ¬ significant s1.lastKeyboard then
        { s1 with active := Source.gamepad }
      else s1
  | Source.pointer =>
      if ¬ significant s1.lastKeyboard ∧ significant e.v then
        { s1 with active := Source.pointer }
      else s1

/-- Run the arbitration machine over a list of move events. -/
noncomputable def arbRun (s : ArbState) (es : List MoveEvent) : ArbState :=
  es.foldl arbStep s

/-! ## Update scheduler (`useGameLoop`) -/

/-- Scheduler state: the `active` flag and `lastRef` (previous timestamp,
milliseconds; `none` right after (re)activation). -/
structure LoopState where
  active : Bool
  last : Option ℚ

/-- Events driving the scheduler: toggling the `active` flag (effect re-run
plus cleanup) and an animation frame at absolute time `t`. -/
inductive LoopEvent
  | setActive (b : Bool)
  | frame (t : ℚ)
  deriving DecidableEq

/-- The delta computation of `useGameLoop.step`:
`lastRef.current == null ? 16.7 : Math.min(50, now - lastRef.current)`. -/
def dtOf (last : Option ℚ) (now : ℚ) : ℚ :=
  match last with
  | none => 167/10
  | some t => min 50 (now - t)

/-- One scheduler transition; the second component is the delta passed to
`update`, when `update` is invoked at all.  Deactivation cancels the pending
frame and clears the stored timestamp; frames while inactive never run. -/
def loopStep (s : LoopState) (e : LoopEvent) : LoopState × Option ℚ :=
  match e with
  | LoopEvent.setActive false => ({ active := false, last := none }, none)
  | LoopEvent.setActive true => ({ s with active := true }, none)
  | LoopEvent.frame t =>
      if s.active then ({ active := true, last := some t }, some (dtOf s.last t))
      else (s, none)

/-- Run the scheduler over a list of events, collecting the deltas delivered
to `update` in order. -/
def loopRun (s : LoopState) : List LoopEvent → LoopState × List ℚ
  | [] => (s, [])
  | e :: es =>
      let r := loopStep s e
      let rest := loopRun r.1 es
      (rest.1, (match r.2 with | some d => [d] | none => []) ++ rest.2)

/-! ## Helper lemmas -/

/-- The zero vector is not significant: `Math.hypot(0,0) = 0 ≤ EPS`. -/
lemma not_significant_zero : ¬ significant ⟨0, 0⟩ := by
  unfold significant hypot EPS
  rw [show ((0:ℝ)^2 + (0:ℝ)^2) = 0 by norm_num, Real.sqrt_zero]
  norm_num

/-- The unit-x vector is significant: `Math.hypot(1,0) = 1 > EPS`. -/
lemma significant_unit : significant ⟨1, 0⟩ := by
  unfold significant hypot EPS
  rw [show ((1:ℝ)^2 + (0:ℝ)^2) = 1 by norm_num, Real.sqrt_one]
  norm_num

/-! ## Theorems -/

/-- C6: every numeric calibration write is clamped, never rejected: the
stored dead zone is `min 0.9 (max 0 input)` and lies in `[0, 0.9]`; the
stored response curve is `max 0.5 input` and is at least `0.5`. -/
theorem setCalibration_clamps (c : Calib) (d r : ℝ) :
    (setCalibration c (some d) (some r)).deadZone = min (9/10) (max 0 d) ∧
    0 ≤ (setCalibration c (some d) (some r)).deadZone ∧
    (setCalibration c (some d) (some r)).deadZone ≤ 9/10 ∧
    (setCalibration c (some d) (some r)).responseCurve = max (1/2) r ∧
    1/2 ≤ (setCalibration c (some d) (some r)).responseCurve := by
  refine ⟨rfl, ?_, ?_, rfl, ?_⟩
  · exact le_min (by norm_num) (le_max_left 0 d)
  · exact min_le_left _ _
  · exact le_max_left _ _

/-- C10: `setCalibration` updates its fields independently and partially:
an absent (non-numeric) option leaves the corresponding field unchanged, and
setting one field never modifies the other. -/
theorem setCalibration_independent (c : Calib) (d r : ℝ) (o : Option ℝ) :
    (setCalibration c none o).deadZone = c.deadZone ∧
    (setCalibration c o none).responseCurve = c.responseCurve ∧
    (setCalibration c (some d) none).responseCurve = c.responseCurve ∧
    (setCalibration c none (some r)).deadZone = c.deadZone := by
  cases o <;> simp [setCalibration]

/-- C7: each component of the keyboard-derived vector is exactly one of
`{-1, 0, 1}`: `+1` iff only the positive key of the axis is held, `-1` iff
only the negative key is held, `0` iff neither or both are held; keys are
stored lower-cased, so `"W"` and `"ArrowLeft"` are recognized. -/
theorem keyVector_digital (keys : List String) :
    ((keyVector keys).1 = -1 ∨ (keyVector keys).1 = 0 ∨ (keyVector keys).1 = 1) ∧
    ((keyVector keys).2 = -1 ∨ (keyVector keys).2 = 0 ∨ (keyVector keys).2 = 1) ∧
    ((keyVector keys).1 = 1 ↔ (heldRight keys = true ∧ heldLeft keys = false)) ∧
    ((keyVector keys).1 = -1 ↔ (heldLeft keys = true ∧ heldRight keys = false)) ∧
    ((keyVector keys).1 = 0 ↔ heldRight keys = heldLeft keys) ∧
    ((keyVector keys).2 = -1 ↔ (heldUp keys = true ∧ heldDown keys = false)) ∧
    ((keyVector keys).2 = 1 ↔ (heldDown keys = true ∧ heldUp keys = false)) ∧
    ((keyVector keys).2 = 0 ↔ heldDown keys = heldUp keys) ∧
    keyVector (keydownStep [] "W").1 = (0, -1) ∧
    keyVector (keydownStep [] "ArrowLeft").1 = (-1, 0) := by
  refine ⟨?_, ?_, ?_, ?_, ?_, ?_, ?_, ?_, by decide, by decide⟩ <;>
    cases h1 : heldRight keys <;> cases h2 : heldLeft keys <;>
    cases h3 : heldUp keys <;> cases h4 : heldDown keys <;>
    simp [keyVector, h1, h2, h3, h4]

/-- C5: a keyboard move event with a non-significant vector sets the active
source to `pointer` within that same event, whatever was active before. -/
theorem keyboard_release_frees_control (s : ArbState) (v : Vec)
    (h : ¬ significant v) :
    (arbStep s ⟨Source.keyboard, v⟩).active = Source.pointer := by
  simp only [arbStep, recordLast]
  rw [if_neg h]

/-- Witness for C5 at a concrete state: a zero keyboard vector hands control
to `pointer` even when the gamepad was active. -/
theorem keyboard_release_frees_control_witness :
    (arbStep ⟨Source.gamepad, ⟨0, 0⟩, ⟨1, 0⟩, ⟨0, 0⟩⟩
      ⟨Source.keyboard, ⟨0, 0⟩⟩).active = Source.pointer :=
  keyboard_release_frees_control _ _ not_significant_zero

/-- Counterexample to C4 as stated: the keydown handler has no edge guard,
so a second keydown of the space key while it is already held (as delivered
by OS auto-repeat) fires the trigger again. -/
theorem keyboard_trigger_refires_on_held_keydown :
    (keydownStep [] " ").2 = true ∧ (keydownStep (keydownStep [] " ").1 " ").2 = true := by
  decide

/-- A non-keyboard event cannot change the active source while the last
keyboard vector is significant, and it leaves that vector untouched. -/
lemma arbStep_nonkeyboard_preserves (s : ArbState) (e : MoveEvent)
    (hkb : significant s.lastKeyboard) (hsrc : e.src ≠ Source.keyboard) :
    (arbStep s e).active = s.active ∧ (arbStep s e).lastKeyboard = s.lastKeyboard := by
  obtain ⟨src, v⟩ := e
  cases src with
  | keyboard => exact absurd rfl hsrc
  | gamepad =>
      simp only [arbStep, recordLast]
      rw [if_neg]
      · exact ⟨rfl, rfl⟩
      · exact fun h => h.2 hkb
  | pointer =>
      simp only [arbStep, recordLast]
      rw [if_neg]
      · exact ⟨rfl, rfl⟩
      · exact fun h => h.1 hkb

/-- Over any run of non-keyboard events, a significant keyboard hold pins the
active source and the recorded keyboard vector. -/
lemma arbRun_nonkeyboard_preserves (es : List MoveEvent) (s : ArbState)
    (hkb : significant s.lastKeyboard)
    (hes : ∀ e ∈ es, e.src ≠ Source.keyboard) :
    (arbRun s es).active = s.active ∧ (arbRun s es).lastKeyboard = s.lastKeyboard := by
  induction es generalizing s with
  | nil => exact ⟨rfl, rfl⟩
  | cons e es ih =>
      have h1 := arbStep_nonkeyboard_preserves s e hkb (hes e (by simp))
      have h2 := ih (arbStep s e) (h1.2 ▸ hkb) (fun x hx => hes x (by simp [hx]))
      unfold arbRun at h2 ⊢
      rw [List.foldl_cons]
      exact ⟨h2.1.trans h1.1, h2.2.trans h1.2⟩

/-- C2: while the last keyboard vector is significant, no run of gamepad (or
pointer) events moves the active source off `keyboard`; a gamepad event
claims control exactly when its own vector is significant and the recorded
keyboard vector is not, and otherwise changes nothing. -/
theorem gamepad_cannot_preempt_keyboard (s : ArbState) (es : List MoveEvent) (v : Vec) :
    (significant s.lastKeyboard → s.active = Source.keyboard →
      (∀ e ∈ es, e.src ≠ Source.keyboard) →
      (arbRun s es).active = Source.keyboard) ∧
    (significant v → ¬ significant s.lastKeyboard →
      (arbStep s ⟨Source.gamepad, v⟩).active = Source.gamepad) ∧
    (¬ (significant v ∧ ¬ significant s.lastKeyboard) →
      (arbStep s ⟨Source.gamepad, v⟩).active = s.active) := by
  refine ⟨?_, ?_, ?_⟩
  · intro hkb hact hes
    rw [(arbRun_nonkeyboard_preserves es s hkb hes).1, hact]
  · intro hv hkb
    simp only [arbStep, recordLast]
    rw [if_pos ⟨hv, hkb⟩]
  · intro hcond
    simp only [arbStep, recordLast]
    rw [if_neg hcond]

/-- Witness for C2: with a held keyboard vector `(1,0)`, a significant
gamepad event leaves `keyboard` active; from an idle keyboard, a significant
gamepad event claims control. -/
theorem gamepad_cannot_preempt_keyboard_witness :
    (arbRun ⟨Source.keyboard, ⟨1, 0⟩, ⟨0, 0⟩, ⟨0, 0⟩⟩
        [⟨Source.gamepad, ⟨1, 0⟩⟩]).active = Source.keyboard ∧
    (arbStep ⟨Source.pointer, ⟨0, 0⟩, ⟨0, 0⟩, ⟨0, 0⟩⟩
        ⟨Source.gamepad, ⟨1, 0⟩⟩).active = Source.gamepad := by
  constructor
  · exact (gamepad_cannot_preempt_keyboard ⟨Source.keyboard, ⟨1, 0⟩, ⟨0, 0⟩, ⟨0, 0⟩⟩
      [⟨Source.gamepad, ⟨1, 0⟩⟩] ⟨1, 0⟩).1 significant_unit rfl
      (by intro e he; simp at he; rw [he]; decide)
  · exact (gamepad_cannot_preempt_keyboard ⟨Source.pointer, ⟨0, 0⟩, ⟨0, 0⟩, ⟨0, 0⟩⟩
      [] ⟨1, 0⟩).2.1 significant_unit not_significant_zero

/-- C3: every `update` invocation while active receives a delta with
`0 < delta ≤ 50` (for an advancing clock); when there is no stored previous
timestamp the nominal default `16.7` is used, and a `500` ms gap between
consecutive frames yields exactly `50`. -/
theorem update_delta_bounded (s : LoopState) (t : ℚ)
    (hact : s.active = true)
    (hclock : ∀ u, s.last = some u → u < t) :
    (loopStep s (LoopEvent.frame t)).2 = some (dtOf s.last t) ∧
    0 < dtOf s.last t ∧ dtOf s.last t ≤ 50 ∧
    (s.last = none → dtOf s.last t = 167/10) ∧
    (∀ u, s.last = some u → t - u = 500 → dtOf s.last t = 50) := by
  refine ⟨by simp [loopStep, hact], ?_, ?_, ?_, ?_⟩
  · cases h : s.last with
    | none => norm_num [dtOf]
    | some u =>
        have := hclock u h
        simp only [dtOf]
        exact lt_min (by norm_num) (by linarith)
  · cases h : s.last with
    | none => norm_num [dtOf]
    | some u => exact min_le_left _ _
  · intro h
    simp [dtOf, h]
  · intro u hu hgap
    simp only [dtOf, hu]
    rw [hgap]
    norm_num

/-- Witness for C3: the first frame after activation delivers `16.7`, and a
frame arriving `500` ms after the stored timestamp delivers `50`, not `500`. -/
theorem update_delta_bounded_witness :
    (loopStep ⟨true, none⟩ (LoopEvent.frame 1000)).2 = some (dtOf none 1000) ∧
    dtOf none 1000 = 167/10 ∧
    dtOf (some 100) 600 ≤ 50 ∧ dtOf (some 100) 600 = 50 := by
  have h1 := update_delta_bounded ⟨true, none⟩ 1000 rfl (by intro u hu; cases hu)
  have h2 := update_delta_bounded ⟨true, some 100⟩ 600 rfl
    (by intro u hu; rw [Option.some.injEq] at hu; rw [← hu]; norm_num)
  exact ⟨h1.1, h1.2.2.2.1 rfl, h2.2.2.1, h2.2.2.2.2 100 rfl (by norm_num)⟩

/-- While inactive, the scheduler never invokes `update`, and it stays
inactive as long as the activation flag is not raised. -/
lemma loopRun_inactive (es : List LoopEvent) (s : LoopState)
    (hin : s.active = false)
    (hes : ∀ e ∈ es, e ≠ LoopEvent.setActive true) :
    (loopRun s es).2 = [] ∧ (loopRun s es).1.active = false := by
  induction es generalizing s with
  | nil => exact ⟨rfl, hin⟩
  | cons e es ih =>
      have hstep : (loopStep s e).2 = none ∧ (loopStep s e).1.active = false := by
        cases e with
        | setActive b =>
            cases b with
            | false => exact ⟨rfl, rfl⟩
            | true => exact absurd rfl (hes _ (by simp))
        | frame t => simp [loopStep, hin]
      have hrest := ih (loopStep s e).1 hstep.2 (fun x hx => hes x (by simp [hx]))
      simp only [loopRun]
      rw [hstep.1, hrest.1]
      exact ⟨rfl, hrest.2⟩

/-- C9: while the active flag is false no `update` runs and the stored
timestamp is cleared on deactivation; after toggling off and back on, the
first frame delivers the nominal default `16.7`, never the inactive gap. -/
theorem deactivation_resets_timing (s : LoopState) (es : List LoopEvent) (t : ℚ)
    (hin : s.active = false)
    (hes : ∀ e ∈ es, e ≠ LoopEvent.setActive true) :
    (loopRun s es).2 = [] ∧
    (loopStep s (LoopEvent.setActive false)).1.last = none ∧
    (loopStep (loopStep (loopStep s (LoopEvent.setActive false)).1
        (LoopEvent.setActive true)).1 (LoopEvent.frame t)).2 = some (167/10) := by
  refine ⟨(loopRun_inactive es s hin hes).1, rfl, ?_⟩
  simp [loopStep, dtOf]

/-- Witness for C9: from an inactive state with a stale timestamp, frames and
a redundant deactivation deliver no update, deactivation clears the
timestamp, and the first frame after re-activation gets `16.7`. -/
theorem deactivation_resets_timing_witness :
    (loopRun ⟨false, some 42⟩
        [LoopEvent.frame 1, LoopEvent.setActive false, LoopEvent.frame 2]).2 = [] ∧
    (loopStep ⟨false, some 42⟩ (LoopEvent.setActive false)).1.last = none ∧
    (loopStep (loopStep (loopStep ⟨false, some 42⟩ (LoopEvent.setActive false)).1
        (LoopEvent.setActive true)).1 (LoopEvent.frame 700)).2 = some (167/10) := by
  refine deactivation_resets_timing ⟨false, some 42⟩ _ 700 rfl ?_
  intro e he
  simp at he
  rcases he with rfl | rfl | rfl <;> simp

/-- While the button-down flag is set and buttons stay pressed, no further
gamepad trigger fires. -/
lemma gpTriggerCount_held (n : Nat) :
    gpTriggerCount true (List.replicate n true) = 0 := by
  induction n with
  | zero => rfl
  | succ n ih => simpa [List.replicate_succ, gpTriggerCount, gpPollStep] using ih

/-- Held polls prepended to further polls contribute nothing and keep the
flag set. -/
lemma gpTriggerCount_held_append (n : Nat) (ps : List Bool) :
    gpTriggerCount true (List.replicate n true ++ ps) = gpTriggerCount true ps := by
  induction n with
  | zero => rfl
  | succ n ih => simpa [List.replicate_succ, gpTriggerCount, gpPollStep] using ih

/-- Released polls clear the flag and contribute nothing. -/
lemma gpTriggerCount_released_append (d : Bool) (m : Nat) (ps : List Bool) :
    gpTriggerCount d (List.replicate (m + 1) false ++ ps) = gpTriggerCount false ps := by
  induction m generalizing d with
  | zero => simp [List.replicate_succ, gpTriggerCount, gpPollStep]
  | succ m ih => simpa [List.replicate_succ, gpTriggerCount, gpPollStep] using ih false

/-- C4 amended: a gamepad press held over any number of polls fires exactly
one trigger, and firing again requires a release followed by a new press
(one trigger per press-release cycle); the keyboard trigger instead fires on
every keydown event of an activate key, held or not. -/
theorem trigger_edge_behavior (n m k : Nat) (keys : List String) (key : String)
    (hkey : toLowerCase key = " " ∨ toLowerCase key = "space" ∨
      toLowerCase key = "enter") :
    gpTriggerCount false (List.replicate (n + 1) true) = 1 ∧
    gpTriggerCount false (List.replicate (n + 1) true ++
      List.replicate (m + 1) false ++ List.replicate (k + 1) true) = 2 ∧
    (keydownStep keys key).2 = true := by
  refine ⟨?_, ?_, ?_⟩
  · simp [List.replicate_succ, gpTriggerCount, gpPollStep, gpTriggerCount_held]
  · rw [List.append_assoc, List.replicate_succ]
    simp only [List.cons_append, gpTriggerCount, gpPollStep, List.append_eq]
    rw [gpTriggerCount_held_append, gpTriggerCount_released_append]
    simp [List.replicate_succ, gpTriggerCount, gpPollStep, gpTriggerCount_held]
  · simp only [keydownStep]
    rcases hkey with h | h | h <;> simp [h]

/-- Witness for the amended C4: two held polls fire once; press, release,
press fires twice; a keydown of `"Enter"` fires even while space is held. -/
theorem trigger_edge_behavior_witness :
    gpTriggerCount false (List.replicate 2 true) = 1 ∧
    gpTriggerCount false (List.replicate 2 true ++
      List.replicate 1 false ++ List.replicate 1 true) = 2 ∧
    (keydownStep [" "] "Enter").2 = true :=
  trigger_edge_behavior 1 0 0 [" "] "Enter" (by right; right; decide)

/-- The sign `Math.sign` of a nonzero value has absolute value `1`. -/
lemma abs_jsign (v : ℝ) (hv : v ≠ 0) : |jsign v| = 1 := by
  unfold jsign
  rcases hv.lt_or_lt with h | h
  · rw [if_neg (not_lt.mpr h.le), if_pos h]
    norm_num
  · rw [if_pos h]
    norm_num

/-- Beyond the dead zone the shaper's magnitude is the curved normalized
travel. -/
lemma abs_shapeAxis (c : Calib) (v : ℝ) (h0 : 0 ≤ c.deadZone)
    (h1 : c.deadZone < 1) (hv : c.deadZone < |v|) :
    |shapeAxis c v| = ((|v| - c.deadZone) / (1 - c.deadZone)) ^ c.responseCurve := by
  have hvne : v ≠ 0 := by
    intro h
    rw [h, abs_zero] at hv
    exact absurd hv (not_lt.mpr h0)
  have hn : 0 ≤ (|v| - c.deadZone) / (1 - c.deadZone) :=
    div_nonneg (by linarith) (by linarith)
  simp only [shapeAxis]
  rw [if_neg (not_le.mpr hv), abs_mul, abs_jsign v hvne, one_mul,
    abs_of_nonneg (Real.rpow_nonneg hn _)]

/-- Rational bracketing of `(1/3) ^ 1.6` via its fifth power `(1/3)^8`. -/
lemma rpow_third_bounds :
    (169:ℝ)/1000 < ((1:ℝ)/3) ^ ((8:ℝ)/5) ∧ ((1:ℝ)/3) ^ ((8:ℝ)/5) < (173:ℝ)/1000 := by
  have hy0 : (0:ℝ) ≤ ((1:ℝ)/3) ^ ((8:ℝ)/5) := Real.rpow_nonneg (by norm_num) _
  have h5 : (((1:ℝ)/3) ^ ((8:ℝ)/5)) ^ (5:ℕ) = ((1:ℝ)/3) ^ (8:ℕ) := by
    rw [← Real.rpow_natCast (((1:ℝ)/3) ^ ((8:ℝ)/5)) 5, ← Real.rpow_mul (by norm_num),
      show (8:ℝ)/5 * ((5:ℕ):ℝ) = ((8:ℕ):ℝ) by push_cast; norm_num,
      Real.rpow_natCast]
  constructor
  · by_contra h
    push_neg at h
    have h2 := pow_le_pow_left₀ hy0 h 5
    rw [h5] at h2
    norm_num at h2
  · by_contra h
    push_neg at h
    have h2 := pow_le_pow_left₀ (by norm_num : (0:ℝ) ≤ 173/1000) h 5
    rw [h5] at h2
    norm_num at h2

/-- At the default calibration, `shapeAxis 0.5 = (1/3) ^ 1.6`. -/
lemma shapeAxis_default_half :
    shapeAxis defaultCalib (1/2) = ((1:ℝ)/3) ^ ((8:ℝ)/5) := by
  have habs : |(1:ℝ)/2| = 1/2 := abs_of_nonneg (by norm_num)
  simp only [shapeAxis, defaultCalib, jsign, habs]
  rw [if_neg (by norm_num), if_pos (by norm_num)]
  norm_num

/-- C1: the shaper returns `0` inside the dead zone (and exactly at its
boundary), follows `sign(raw) * ((|raw| - deadZone)/(1 - deadZone)) ^
responseCurve` outside it, and at the default calibration `shape(0.5)` is
within `0.004` of `0.169`. -/
theorem shapeAxis_spec (c : Calib) (raw : ℝ)
    (_h0 : 0 ≤ c.deadZone) (_h1 : c.deadZone ≤ 9/10)
    (_h2 : 1/2 ≤ c.responseCurve) :
    (|raw| ≤ c.deadZone → shapeAxis c raw = 0) ∧
    (c.deadZone < |raw| →
      shapeAxis c raw =
        jsign raw * ((|raw| - c.deadZone) / (1 - c.deadZone)) ^ c.responseCurve) ∧
    (|raw| = c.deadZone → shapeAxis c raw = 0) ∧
    |shapeAxis defaultCalib (1/2) - 169/1000| < 1/250 := by
  refine ⟨?_, ?_, ?_, ?_⟩
  · intro h
    simp only [shapeAxis]
    rw [if_pos h]
  · intro h
    simp only [shapeAxis]
    rw [if_neg (not_le.mpr h)]
  · intro h
    simp only [shapeAxis]
    rw [if_pos (le_of_eq h)]
  · rw [shapeAxis_default_half]
    have hb := rpow_third_bounds
    rw [abs_lt]
    constructor <;> linarith [hb.1, hb.2]

/-- Witness for C1: a raw value inside the default dead zone maps to `0`,
and `shape(0.5)` is within `0.004` of `0.169`. -/
theorem shapeAxis_spec_witness :
    shapeAxis defaultCalib (1/10) = 0 ∧
    |shapeAxis defaultCalib (1/2) - 169/1000| < 1/250 := by
  have h := shapeAxis_spec defaultCalib (1/10)
    (by norm_num [defaultCalib]) (by norm_num [defaultCalib])
    (by norm_num [defaultCalib])
  refine ⟨h.1 ?_, h.2.2.2⟩
  rw [abs_of_nonneg (by norm_num : (0:ℝ) ≤ 1/10)]
  norm_num [defaultCalib]

/-- C8: for a fixed calibration with `deadZone ∈ [0, 0.9]` and
`responseCurve ≥ 0.5`, the shaper's output magnitude is monotonically
non-decreasing in `|raw|` beyond the dead zone. -/
theorem shapeAxis_monotone (c : Calib) (a b : ℝ)
    (h0 : 0 ≤ c.deadZone) (h1 : c.deadZone ≤ 9/10) (h2 : 1/2 ≤ c.responseCurve)
    (ha : c.deadZone < |a|) (hab : |a| ≤ |b|) :
    |shapeAxis c a| ≤ |shapeAxis c b| := by
  have h1' : c.deadZone < 1 := by linarith
  have hb : c.deadZone < |b| := lt_of_lt_of_le ha hab
  rw [abs_shapeAxis c a h0 h1' ha, abs_shapeAxis c b h0 h1' hb]
  refine Real.rpow_le_rpow (div_nonneg (by linarith) (by linarith)) ?_ (by linarith)
  gcongr ; linarith

/-- Witness for C8 at the default calibration: `|shape(0.5)| ≤ |shape(0.75)|`. -/
theorem shapeAxis_monotone_witness :
    |shapeAxis defaultCalib (1/2)| ≤ |shapeAxis defaultCalib (3/4)| := by
  refine shapeAxis_monotone defaultCalib (1/2) (3/4)
    (by norm_num [defaultCalib]) (by norm_num [defaultCalib])
    (by norm_num [defaultCalib]) ?_ ?_
  · rw [abs_of_nonneg (by norm_num : (0:ℝ) ≤ 1/2)]
    norm_num [defaultCalib]
  · rw [abs_of_nonneg (by norm_num : (0:ℝ) ≤ 1/2),
      abs_of_nonneg (by norm_num : (0:ℝ) ≤ 3/4)]
    norm_num

end Minigioco
